import Mathlib

/-!
Shallow embedding of `src/scroller.py` (ScottBot10/scroller).

The Python class hierarchy `ScrollerBase` / `Scroller` / `RightScroller` /
`LeftScroller` is flattened into one structure `Scroller` holding every
field set by the constructors, plus a `Direction` value selecting which
concrete `get_text` override is dispatched to.  Strings are `List Char`;
Python `int` is `Int`.  The `wait` (a float the engine only passes to
`time.sleep`) and `callback` (a function the engine only invokes) fields
are carried as opaque values of type parameters: the engine never inspects
them, and the observable effect of a step — the display string handed to
the callback — is returned explicitly by the step functions.
-/

/-- Python index normalisation for a slice bound `s[a:b]` with step 1:
a negative bound counts from the end (clamped below at 0), a non-negative
bound is clamped above at the length. -/
def pyIdx (n : Nat) (i : Int) : Nat :=
  if i < 0 then ((n : Int) + i).toNat else min i.toNat n

/-- Python slice `s[a:b]` (step 1); `none` stands for an omitted bound. -/
def pySlice (s : List Char) (a b : Option Int) : List Char :=
  (s.take (match b with | none => s.length | some i => pyIdx s.length i)).drop
    (match a with | none => 0 | some i => pyIdx s.length i)

/-- Python string repetition `f * n` (an `int` factor; non-positive gives `''`). -/
def strRepI (f : List Char) (n : Int) : List Char :=
  (List.replicate n.toNat f).flatten

/-- The scroller state: fields of `ScrollerBase.__init__` and
`Scroller.__init__`.  `α` is the type of the opaque `wait` value, `β` the
type of the opaque `callback` value. -/
structure Scroller (α β : Type) where
  width : Int
  text : List Char
  filler : List Char
  wait : α
  callback : β
  include_first : Bool
  include_last : Bool
  _index : Int

variable {α β : Type}

/-- `ScrollerBase.max_index`: `len(self.text) + self.width`. -/
def Scroller.max_index (s : Scroller α β) : Int :=
  s.text.length + s.width

/-- `ScrollerBase.get_begin_end`: `index` defaults to `self._index`
(Python `None` ↦ `none`); returns `(index - width, -(index - len(text)))`. -/
def Scroller.get_begin_end (s : Scroller α β) (index : Option Int) : Int × Int :=
  let i := index.getD s._index
  (i - s.width, -(i - (s.text.length : Int)))

/-- `RightScroller.get_text`: first recomputes `(begin, end)` from the live
`self._index` via `get_begin_end()`, shadowing the passed-in arguments. -/
def RightScroller.get_text (s : Scroller α β) (b e : Int) : List Char :=
  let p := s.get_begin_end none
  let b := p.1
  let e := p.2
  if b < 0 ∧ e < 0 then
    strRepI s.filler (-e) ++ s.text ++ strRepI s.filler (-b)
  else if b < 0 then
    (if s._index = 0 then [] else pySlice s.text (some (-s._index)) none) ++
      strRepI s.filler (-b)
  else if e < 0 then
    strRepI s.filler (-e) ++ (if b = 0 then s.text else pySlice s.text none (some (-b)))
  else
    if b = 0 then pySlice s.text (some e) none else pySlice s.text (some e) (some (-b))

/-- `LeftScroller.get_text`: uses the passed-in `(begin, end)` arguments. -/
def LeftScroller.get_text (s : Scroller α β) (b e : Int) : List Char :=
  if b < 0 ∧ e < 0 then
    strRepI s.filler (-b) ++ s.text ++ strRepI s.filler (-e)
  else if b < 0 then
    strRepI s.filler (-b) ++ (if e = 0 then s.text else pySlice s.text none (some (-e)))
  else if e < 0 then
    pySlice s.text (some b) none ++ strRepI s.filler (-e)
  else
    if e = 0 then pySlice s.text (some b) none else pySlice s.text (some b) (some (-e))

/-- The two concrete subclasses overriding `get_text`. -/
inductive Direction
  | rightScroller
  | leftScroller
deriving DecidableEq

/-- Dynamic dispatch of the abstract `get_text` over the two subclasses. -/
def getText (d : Direction) (s : Scroller α β) (b e : Int) : List Char :=
  match d with
  | .rightScroller => RightScroller.get_text s b e
  | .leftScroller => LeftScroller.get_text s b e

/-- The minimum visitable index, `int(not self.include_first)`, as used by
the wrap tests and by `range`/`start`. -/
def Scroller.minIndex (s : Scroller α β) : Int :=
  if s.include_first then 0 else 1

/-- The maximum visitable index,
`self.max_index - int(not self.include_last)`, as used by the wrap tests. -/
def Scroller.maxIndex (s : Scroller α β) : Int :=
  s.max_index - (if s.include_last then 0 else 1)

/-- `Scroller.range` (property): `(int(not include_first), max_index + int(include_last))`. -/
def Scroller.range (s : Scroller α β) : Int × Int :=
  ((if s.include_first then 0 else 1), s.max_index + (if s.include_last then 1 else 0))

/-- `Scroller.__next__`: increments `_index`, wraps past
`max_index - int(not include_last)` to `int(not include_first)`, then
computes the display text; the string passed to the callback is returned. -/
def Scroller.next (d : Direction) (s : Scroller α β) : Scroller α β × List Char :=
  let i0 := s._index + 1
  let i := if i0 > s.max_index - (if s.include_last then 0 else 1) then
    (if s.include_first then 0 else 1) else i0
  let s1 : Scroller α β := { s with _index := i }
  let p := s1.get_begin_end (some s1._index)
  (s1, getText d s1 p.1 p.2)

/-- `Scroller.__prev__`: decrements `_index`, wraps below
`int(not include_first)` to `max_index - int(not include_last)`, then
computes the display text; the string passed to the callback is returned. -/
def Scroller.prev (d : Direction) (s : Scroller α β) : Scroller α β × List Char :=
  let i0 := s._index - 1
  let i := if i0 < (if s.include_first then 0 else 1) then
    s.max_index - (if s.include_last then 0 else 1) else i0
  let s1 : Scroller α β := { s with _index := i }
  let p := s1.get_begin_end (some s1._index)
  (s1, getText d s1 p.1 p.2)

/-- `n` successive `__next__` calls, with the trace of
`(index landed on, display text emitted)` pairs, in order. -/
def stepTrace (d : Direction) : Nat → Scroller α β → Scroller α β × List (Int × List Char)
  | 0, s => (s, [])
  | n + 1, s =>
    let p1 := Scroller.next d s
    let p2 := stepTrace d n p1.1
    (p2.1, (p1.1._index, p1.2) :: p2.2)

/-- `Scroller.run`: `for _ in range(*self.range): self.__next__()` — the
Python `range(start, stop)` loop body executes `max(0, stop - start)` times. -/
def Scroller.run (d : Direction) (s : Scroller α β) : Scroller α β × List (Int × List Char) :=
  stepTrace d (s.range.2 - s.range.1).toNat s

/-- `Scroller.repeat` for a non-negative `times` argument:
`while times != 0: self.run(); times -= 1` runs exactly `times` passes
(a negative `times` never terminates and is outside this embedding). -/
def repeatScroll (d : Direction) : Nat → Scroller α β → Scroller α β × List (Int × List Char)
  | 0, s => (s, [])
  | n + 1, s =>
    let p1 := Scroller.run d s
    let p2 := repeatScroll d n p1.1
    (p2.1, p1.2 ++ p2.2)

/-- `Scroller.start`: resets `_index` to `int(not include_first) - 1`
and performs one `__next__`. -/
def Scroller.start (d : Direction) (s : Scroller α β) : Scroller α β × List Char :=
  Scroller.next d { s with _index := (if s.include_first then 0 else 1) - 1 }

/-- `Scroller.print_line(display_text, prefix, suffix, end)`: the character
stream written to stdout, `"\r" + prefix + display_text + suffix` followed
by the `end` argument exactly when `self._index == self.max_index -
int(not self.include_last)`, and by `''` otherwise. -/
def Scroller.print_line (s : Scroller α β) (display_text pre suf fin : List Char) : List Char :=
  '\r' :: (pre ++ display_text ++ suf ++
    (if s._index = s.max_index - (if s.include_last then 0 else 1) then fin else []))

/-- `Scroller.print_line(display_text)` at the Python defaults
`prefix='.'`, `suffix='.'`, `end=''` — how the default callback invokes it. -/
def Scroller.print_line_default (s : Scroller α β) (display_text : List Char) : List Char :=
  s.print_line display_text ['.'] ['.'] []

/-- `Scroller.print_newline`: the lambda forwarding to `print_line` with
`end='\n'`. -/
def Scroller.print_newline (s : Scroller α β) (display_text pre suf : List Char) : List Char :=
  s.print_line display_text pre suf ['\n']

/-- The error kind the specification assigns to a non-positive width. -/
inductive ConfigError
  | invalidConfiguration
deriving DecidableEq

/-- `Scroller.__init__` (running `ScrollerBase.__init__` inside it): stores
the arguments and sets `_index = int(not include_first) - 1`.  The Python
constructor body contains no validation and no `raise` statement, so the
`Except` layer recording construction failure is always `ok`. -/
def Scroller.init (width : Int) (text filler : List Char) (wait : α) (callback : β)
    (include_first include_last : Bool) : Except ConfigError (Scroller α β) :=
  Except.ok
    { width := width, text := text, filler := filler, wait := wait,
      callback := callback, include_first := include_first,
      include_last := include_last,
      _index := (if include_first then 0 else 1) - 1 }

/-- The display string the engine computes at logical index `i`: what
`__next__`/`__prev__` hand to the callback when they land on `i`
(they pass the freshly updated `self._index` to `get_begin_end`). -/
def displayAt (d : Direction) (s : Scroller α β) (i : Int) : List Char :=
  let s1 : Scroller α β := { s with _index := i }
  let p := s1.get_begin_end (some i)
  getText d s1 p.1 p.2

/-- All fields of the engine other than `_index` agree: the frame of the
stepping operations. -/
def sameConfig (s1 s2 : Scroller α β) : Prop :=
  s1.width = s2.width ∧ s1.text = s2.text ∧ s1.filler = s2.filler ∧
  s1.wait = s2.wait ∧ s1.callback = s2.callback ∧
  s1.include_first = s2.include_first ∧ s1.include_last = s2.include_last

/-- A concrete scroller with unit `wait`/`callback` values, for evaluating
the embedding on specific configurations. -/
def mkScroller (w : Int) (t f : List Char) (fi la : Bool) (i : Int) :
    Scroller Unit Unit :=
  { width := w, text := t, filler := f, wait := (), callback := (),
    include_first := fi, include_last := la, _index := i }

/-- `width=5, text="AB", filler='.'`, both boundary frames included,
at the initial sentinel index. -/
def sampleAB : Scroller Unit Unit := mkScroller 5 ['A', 'B'] ['.'] true true (-1)

/-- `width=2, text="a"`, both boundary frames included, at the initial
sentinel index. -/
def sampleRun : Scroller Unit Unit := mkScroller 2 ['a'] [' '] true true (-1)

/-- `width=1, text="a"`, positioned at the final index of the pass
(`max_index = 2`). -/
def sampleEnd : Scroller Unit Unit := mkScroller 1 ['a'] [' '] true true 2

/-- `width=3, text="ab"`, positioned at a non-boundary index
(`minIndex = 0 < 2 < 5 = maxIndex`). -/
def sampleMid : Scroller Unit Unit := mkScroller 3 ['a', 'b'] ['.'] true true 2

/-- `width=2, text="ab"`, positioned at index 0. -/
def sampleArgs : Scroller Unit Unit := mkScroller 2 ['a', 'b'] [' '] true true 0

lemma pyIdx_le (n : Nat) (i : Int) : pyIdx n i ≤ n := by
  unfold pyIdx; split <;> omega

lemma length_strRepI (f : List Char) (n : Int) :
    (strRepI f n).length = n.toNat * f.length := by
  simp [strRepI, List.map_replicate, List.sum_replicate, smul_eq_mul]

lemma length_pySlice_some_none (s : List Char) (i : Int) :
    (pySlice s (some i) none).length = s.length - pyIdx s.length i := by
  simp [pySlice, List.length_drop, List.length_take]

lemma length_pySlice_none_some (s : List Char) (j : Int) :
    (pySlice s none (some j)).length = pyIdx s.length j := by
  have := pyIdx_le s.length j
  simp [pySlice, List.length_drop, List.length_take]; omega

lemma length_pySlice_some_some (s : List Char) (i j : Int) :
    (pySlice s (some i) (some j)).length = pyIdx s.length j - pyIdx s.length i := by
  have := pyIdx_le s.length j
  simp [pySlice, List.length_drop, List.length_take]; omega

lemma set_index_index (s : Scroller α β) (i : Int) :
    ({ s with _index := i } : Scroller α β)._index = i := rfl

lemma set_index_maxIndex (s : Scroller α β) (i : Int) :
    ({ s with _index := i } : Scroller α β).maxIndex = s.maxIndex := rfl

lemma set_index_minIndex (s : Scroller α β) (i : Int) :
    ({ s with _index := i } : Scroller α β).minIndex = s.minIndex := rfl

lemma next_state (d : Direction) (s : Scroller α β)
    (h : s._index + 1 ≤ s.maxIndex) :
    (Scroller.next d s).1 = { s with _index := s._index + 1 } := by
  unfold Scroller.maxIndex at h
  simp only [Scroller.next]
  rw [if_neg (by omega)]

lemma prev_state (d : Direction) (s : Scroller α β)
    (h : s.minIndex ≤ s._index - 1) :
    (Scroller.prev d s).1 = { s with _index := s._index - 1 } := by
  unfold Scroller.minIndex at h
  simp only [Scroller.prev]
  rw [if_neg (by omega)]

lemma next_text (d : Direction) (s : Scroller α β) :
    (Scroller.next d s).2 = displayAt d s (Scroller.next d s).1._index := rfl

lemma prev_text (d : Direction) (s : Scroller α β) :
    (Scroller.prev d s).2 = displayAt d s (Scroller.prev d s).1._index := rfl

lemma sameConfig_next (d : Direction) (s : Scroller α β) :
    sameConfig (Scroller.next d s).1 s :=
  ⟨rfl, rfl, rfl, rfl, rfl, rfl, rfl⟩

lemma sameConfig_prev (d : Direction) (s : Scroller α β) :
    sameConfig (Scroller.prev d s).1 s :=
  ⟨rfl, rfl, rfl, rfl, rfl, rfl, rfl⟩

lemma sameConfig_trans {s1 s2 s3 : Scroller α β}
    (h1 : sameConfig s1 s2) (h2 : sameConfig s2 s3) : sameConfig s1 s3 := by
  obtain ⟨a1, b1, c1, d1, e1, f1, g1⟩ := h1
  obtain ⟨a2, b2, c2, d2, e2, f2, g2⟩ := h2
  exact ⟨a1.trans a2, b1.trans b2, c1.trans c2, d1.trans d2,
    e1.trans e2, f1.trans f2, g1.trans g2⟩

lemma sameConfig_stepTrace (d : Direction) (n : Nat) (s : Scroller α β) :
    sameConfig (stepTrace d n s).1 s := by
  induction n generalizing s with
  | zero => exact ⟨rfl, rfl, rfl, rfl, rfl, rfl, rfl⟩
  | succ n ih =>
    exact sameConfig_trans (ih (Scroller.next d s).1) (sameConfig_next d s)

lemma sameConfig_run (d : Direction) (s : Scroller α β) :
    sameConfig (Scroller.run d s).1 s :=
  sameConfig_stepTrace d _ s

lemma sameConfig_repeatScroll (d : Direction) (n : Nat) (s : Scroller α β) :
    sameConfig (repeatScroll d n s).1 s := by
  induction n generalizing s with
  | zero => exact ⟨rfl, rfl, rfl, rfl, rfl, rfl, rfl⟩
  | succ n ih =>
    exact sameConfig_trans (ih (Scroller.run d s).1) (sameConfig_run d s)

lemma sameConfig_start (d : Direction) (s : Scroller α β) :
    sameConfig (Scroller.start d s).1 s :=
  sameConfig_trans (sameConfig_next d _) ⟨rfl, rfl, rfl, rfl, rfl, rfl, rfl⟩

lemma stepTrace_length (d : Direction) (n : Nat) (s : Scroller α β) :
    (stepTrace d n s).2.length = n := by
  induction n generalizing s with
  | zero => rfl
  | succ n ih => simp [stepTrace, ih]

/-- As long as no wrap can occur, `n` forward steps march `_index` up by one
each time, and the trace records the consecutive indices in order. -/
lemma stepTrace_no_wrap (d : Direction) (n : Nat) (s : Scroller α β)
    (h : s._index + n ≤ s.maxIndex) :
    (stepTrace d n s).1._index = s._index + n ∧
    (stepTrace d n s).2.map Prod.fst =
      (List.range n).map (fun k : Nat => s._index + 1 + (k : Int)) := by
  induction n generalizing s with
  | zero => simp [stepTrace]
  | succ n ih =>
    have h1 : s._index + 1 ≤ s.maxIndex := by
      push_cast at h; omega
    simp only [stepTrace]
    rw [next_state d s h1]
    have ih' := ih { s with _index := s._index + 1 }
      (by rw [set_index_maxIndex, set_index_index]; push_cast at h ⊢; omega)
    rw [set_index_index] at ih'
    constructor
    · rw [ih'.1]; push_cast; ring
    · simp only [List.map_cons, set_index_index, ih'.2,
        List.range_succ_eq_map, List.map_map]
      refine congrArg₂ List.cons (by push_cast; ring) ?_
      apply List.map_congr_left
      intro k _
      simp only [Function.comp_apply]
      push_cast
      ring

/-- C1: For every configuration with `width > 0` and a single-character
filler, and for every reachable index `i` in `[minIndex, maxIndex]`, the
display string computed at `i` has length exactly `width`, for both the
`LeftScroller` and the `RightScroller` variant. -/
theorem C1_display_length_eq_width (d : Direction) (s : Scroller α β) (i : Int)
    (hw : 0 < s.width) (hf : s.filler.length = 1)
    (hlo : s.minIndex ≤ i) (hhi : i ≤ s.maxIndex) :
    (displayAt d s i).length = s.width.toNat := by
  have h0 : (0 : Int) ≤ i := by
    unfold Scroller.minIndex at hlo; split at hlo <;> omega
  have h1 : i ≤ (s.text.length : Int) + s.width := by
    unfold Scroller.maxIndex Scroller.max_index at hhi; split at hhi <;> omega
  clear hlo hhi
  cases d
  all_goals
    simp only [displayAt, getText, RightScroller.get_text, LeftScroller.get_text,
      Scroller.get_begin_end, Option.getD_some, Option.getD_none, set_index_index]
    split_ifs <;>
      simp only [List.length_append, List.length_nil, length_strRepI,
        length_pySlice_some_none, length_pySlice_none_some, length_pySlice_some_some,
        pyIdx, hf, mul_one] <;>
      (first
        | omega
        | (split_ifs <;> omega))

/-- C1 witness: the configuration `width=5, text="AB", filler='.'` at the
reachable index 3 (where the display is `"..AB."`). -/
theorem C1_witness :
    (0 : Int) < sampleAB.width ∧ sampleAB.filler.length = 1 ∧
    sampleAB.minIndex ≤ 3 ∧ (3 : Int) ≤ sampleAB.maxIndex ∧
    (displayAt Direction.leftScroller sampleAB 3).length = sampleAB.width.toNat :=
  ⟨by decide, by decide, by decide, by decide,
    C1_display_length_eq_width Direction.leftScroller sampleAB 3
      (by decide) (by decide) (by decide) (by decide)⟩

/-- C2: `run` performs exactly `maxIndex - minIndex + 1` calls of
`__next__` (the loop bound `range(*self.range)` has that many elements),
and when started from the initial sentinel `minIndex - 1` the pass visits
exactly the indices `minIndex, minIndex + 1, ..., maxIndex`, in increasing
order. -/
theorem C2_run_visits_range_in_order (d : Direction) (s : Scroller α β)
    (hw : 0 < s.width) (h0 : s._index = s.minIndex - 1) :
    ((s.range.2 - s.range.1).toNat : Int) = s.maxIndex - s.minIndex + 1 ∧
    (Scroller.run d s).2.length = (s.maxIndex - s.minIndex + 1).toNat ∧
    (Scroller.run d s).2.map Prod.fst =
      (List.range (s.maxIndex - s.minIndex + 1).toNat).map
        (fun k : Nat => s.minIndex + (k : Int)) := by
  have hcnt : ((s.range.2 - s.range.1).toNat : Int) = s.maxIndex - s.minIndex + 1 := by
    unfold Scroller.range Scroller.maxIndex Scroller.minIndex Scroller.max_index
    split_ifs <;> simp <;> omega
  have hcnt2 : (s.range.2 - s.range.1).toNat = (s.maxIndex - s.minIndex + 1).toNat := by
    omega
  have key := stepTrace_no_wrap d ((s.range.2 - s.range.1).toNat) s
    (by rw [hcnt, h0]; ring_nf; omega)
  have hfun : (fun k : Nat => s._index + 1 + (k : Int)) =
      (fun k : Nat => s.minIndex + (k : Int)) := by
    funext k; rw [h0]; ring
  refine ⟨hcnt, ?_, ?_⟩
  · show (stepTrace d ((s.range.2 - s.range.1).toNat) s).2.length = _
    rw [stepTrace_length, hcnt2]
  · show (stepTrace d ((s.range.2 - s.range.1).toNat) s).2.map Prod.fst = _
    rw [key.2, hfun, hcnt2]

/-- C2 witness: `width=2, text="a"`, both boundaries included, started at
the sentinel `-1`: the pass makes 4 steps visiting `[0, 1, 2, 3]`. -/
theorem C2_witness :
    (0 : Int) < sampleRun.width ∧ sampleRun._index = sampleRun.minIndex - 1 ∧
    ((sampleRun.range.2 - sampleRun.range.1).toNat : Int) =
      sampleRun.maxIndex - sampleRun.minIndex + 1 ∧
    (Scroller.run Direction.leftScroller sampleRun).2.length =
      (sampleRun.maxIndex - sampleRun.minIndex + 1).toNat ∧
    (Scroller.run Direction.leftScroller sampleRun).2.map Prod.fst =
      (List.range (sampleRun.maxIndex - sampleRun.minIndex + 1).toNat).map
        (fun k : Nat => sampleRun.minIndex + (k : Int)) :=
  ⟨by decide, by decide,
    C2_run_visits_range_in_order Direction.leftScroller sampleRun
      (by decide) (by decide)⟩

/-- C3 counterexample: constructing with `width = 0` (which is `<= 0`)
does not fail — the constructor returns a scroller, not an
`InvalidConfiguration` error. -/
theorem C3_counterexample :
    (Scroller.init 0 [] [' '] () () true true).isOk = true ∧
    Scroller.init 0 [] [' '] () () true true =
      Except.ok (mkScroller 0 [] [' '] true true (-1)) :=
  ⟨rfl, rfl⟩

/-- C3 amended: construction never fails for any width — the constructor
performs no validation at all; it stores the arguments unchanged and sets
the index to the sentinel `minIndex - 1`.  (Stepping is likewise total:
every step operation of the embedding is a total function.) -/
theorem C3_no_validation_at_construction (width : Int) (text filler : List Char)
    (wait : α) (callback : β) (include_first include_last : Bool) :
    (Scroller.init width text filler wait callback include_first include_last).isOk
      = true ∧
    ∃ s, Scroller.init width text filler wait callback include_first include_last =
        Except.ok s ∧
      s.width = width ∧ s.text = text ∧ s.filler = filler ∧
      s._index = (if include_first then 0 else 1) - 1 :=
  ⟨rfl, _, rfl, rfl, rfl, rfl, rfl⟩

/-- C4 counterexample: a scroller sitting exactly at the pass's final index
(`width=1, text="a"`, `_index = 2 = maxIndex`) whose default-callback
invocation of `print_line` (Python defaults `prefix='.'`, `suffix='.'`,
`end=''`) writes no newline at all — the claim says a newline is written
there. -/
theorem C4_counterexample :
    sampleEnd._index = sampleEnd.maxIndex ∧
    ¬ ('\n' ∈ Scroller.print_line_default sampleEnd ['x']) := by
  constructor
  · decide
  · decide

/-- C4 amended: the default render sink writes a carriage return followed
by `prefix + displayText + suffix`, and appends the caller-supplied `end`
string exactly when the current index equals `maxIndex` adjusted for
`includeLast`; the default `end` is empty, so the default callback
invocation never terminates the line — the newline variant is the separate
`print_newline` wrapper, which passes `end='\n'` and thus terminates the
line exactly at that final index. -/
theorem C4_print_line_terminator (s : Scroller α β) (dt pre suf : List Char) :
    s.print_line_default dt = '\r' :: '.' :: (dt ++ ['.']) ∧
    (s.print_newline dt pre suf = '\r' :: (pre ++ dt ++ suf ++ ['\n']) ↔
      s._index = s.max_index - (if s.include_last then 0 else 1)) := by
  constructor
  · simp only [Scroller.print_line_default, Scroller.print_line]
    split_ifs <;> simp
  · constructor
    · intro h
      by_contra hne
      simp only [Scroller.print_newline, Scroller.print_line, if_neg hne] at h
      have := congrArg List.length h
      simp at this
    · intro h
      simp [Scroller.print_newline, Scroller.print_line, h]

/-- C5: `__next__` increments the index by 1 and wraps to `minIndex` when
the result exceeds `maxIndex`; `__prev__` decrements by 1 and wraps to
`maxIndex` when the result falls below `minIndex`; in particular stepping
forward from `index = maxIndex` lands exactly on `minIndex`. -/
theorem C5_step_wraparound (d : Direction) (s : Scroller α β) :
    ((Scroller.next d s).1._index =
      if s._index + 1 > s.maxIndex then s.minIndex else s._index + 1) ∧
    ((Scroller.prev d s).1._index =
      if s._index - 1 < s.minIndex then s.maxIndex else s._index - 1) ∧
    (s._index = s.maxIndex → (Scroller.next d s).1._index = s.minIndex) := by
  refine ⟨rfl, rfl, fun h => ?_⟩
  simp only [Scroller.next, Scroller.maxIndex, Scroller.minIndex] at h ⊢
  rw [if_pos (by omega)]

/-- C5 witness: `width=1, text="a"` at `_index = 2 = maxIndex`; a forward
step from there lands on `minIndex = 0`. -/
theorem C5_witness :
    sampleEnd._index = sampleEnd.maxIndex ∧
    (Scroller.next Direction.leftScroller sampleEnd).1._index = sampleEnd.minIndex :=
  ⟨by decide,
    (C5_step_wraparound Direction.leftScroller sampleEnd).2.2 (by decide)⟩

/-- C6: from any strictly non-boundary index, `__next__` followed by
`__prev__` restores the index, and the second callback receives exactly
the display string the engine computes at that index. -/
theorem C6_forward_backward_roundtrip (d : Direction) (s : Scroller α β)
    (h1 : s.minIndex < s._index) (h2 : s._index < s.maxIndex) :
    ((Scroller.prev d (Scroller.next d s).1).1)._index = s._index ∧
    (Scroller.prev d (Scroller.next d s).1).2 = displayAt d s s._index := by
  rw [next_state d s (by omega)]
  rw [prev_state d ({ s with _index := s._index + 1 })
    (by simp [Scroller.minIndex] at h1 ⊢; omega)]
  constructor
  · simp
  · rw [prev_text]
    rw [prev_state d ({ s with _index := s._index + 1 })
      (by simp [Scroller.minIndex] at h1 ⊢; omega)]
    simp only [displayAt]
    norm_num

/-- C6 witness: `width=3, text="ab"` at the non-boundary index 2
(`minIndex = 0 < 2 < 5 = maxIndex`). -/
theorem C6_witness :
    sampleMid.minIndex < sampleMid._index ∧ sampleMid._index < sampleMid.maxIndex ∧
    ((Scroller.prev Direction.rightScroller
        (Scroller.next Direction.rightScroller sampleMid).1).1)._index =
      sampleMid._index ∧
    (Scroller.prev Direction.rightScroller
        (Scroller.next Direction.rightScroller sampleMid).1).2 =
      displayAt Direction.rightScroller sampleMid sampleMid._index :=
  ⟨by decide, by decide,
    C6_forward_backward_roundtrip Direction.rightScroller sampleMid
      (by decide) (by decide)⟩

/-- C7: `get_begin_end` is a pure total function: for every integer index
it returns exactly `(index - width, len(text) - index)`, and with the
defaulted argument it returns the same formula at the stored index. -/
theorem C7_get_begin_end_formula (s : Scroller α β) (i : Int) :
    s.get_begin_end (some i) = (i - s.width, (s.text.length : Int) - i) ∧
    s.get_begin_end none = (s._index - s.width, (s.text.length : Int) - s._index) := by
  constructor <;> simp [Scroller.get_begin_end]

/-- C8: `RightScroller.get_text` recomputes `(begin, end)` from the live
index and ignores its arguments: any two calls on the same state agree for
arbitrary (even mismatched) argument pairs, and equal the display computed
from the current index; `LeftScroller.get_text`, by contrast, depends on
the passed-in arguments, shown by a concrete mismatched pair that changes
its output. -/
theorem C8_right_ignores_arguments :
    (∀ (γ δ : Type) (s : Scroller γ δ) (b e b2 e2 : Int),
      RightScroller.get_text s b e = RightScroller.get_text s b2 e2) ∧
    (∀ (γ δ : Type) (s : Scroller γ δ) (b e : Int),
      RightScroller.get_text s b e = displayAt Direction.rightScroller s s._index) ∧
    (LeftScroller.get_text sampleArgs 0 0 ≠ LeftScroller.get_text sampleArgs 0 1) := by
  refine ⟨fun γ δ s b e b2 e2 => rfl, fun γ δ s b e => rfl, by decide⟩

/-- C9: for every index, the two components returned by `get_begin_end`
sum to `len(text) - width`, a constant of the configuration independent of
the index. -/
theorem C9_window_sum_invariant (s : Scroller α β) (i : Int) :
    (s.get_begin_end (some i)).1 + (s.get_begin_end (some i)).2 =
      (s.text.length : Int) - s.width := by
  simp [Scroller.get_begin_end]

/-- C10: the stepping operations `__next__`, `__prev__`, `run`,
`repeat` (any non-negative number of passes) and `start` change only the
`_index` field: `width`, `text`, `filler`, `wait`, `callback`,
`include_first` and `include_last` are all preserved. -/
theorem C10_steps_mutate_only_index (d : Direction) (s : Scroller α β) (m : Nat) :
    sameConfig (Scroller.next d s).1 s ∧ sameConfig (Scroller.prev d s).1 s ∧
    sameConfig (Scroller.run d s).1 s ∧ sameConfig (repeatScroll d m s).1 s ∧
    sameConfig (Scroller.start d s).1 s :=
  ⟨sameConfig_next d s, sameConfig_prev d s, sameConfig_run d s,
    sameConfig_repeatScroll d m s, sameConfig_start d s⟩
